import Mathlib

/-!
Verification of the model orchestration component of the tmap_defectdetector
repository, file src/tmap_defectdetector/model/tflow.py, as a shallow
embedding: pandas DataFrames of labeled image samples become lists of Row
records, numpy images are records carrying their shape, floating-point
quality scores are exact rationals, and the keras network life cycle becomes
a small state machine emitting events.
-/

namespace TmapDefectDetector

/-- A numpy image array, modelled by its shape (the tuple ndarray.shape)
together with an abstract pixel-content token standing for the actual data. -/
structure Img where
  shape : List Nat
  pix : Nat
deriving DecidableEq, Repr

/-- One row of the sample DataFrame: the unique sample-id column, the image
column, and the continuous quality/probability score column (the float score
is modelled as an exact rational). -/
structure Row where
  sid : Nat
  img : Img
  quality : ℚ
deriving DecidableEq, Repr

/-- The sample-id column of a frame. -/
def ids (l : List Row) : List Nat := l.map Row.sid

/-- Number of rows of `l` whose sample id equals `i`. -/
def countId (l : List Row) (i : Nat) : Nat := (ids l).count i

/-- `DataFrame.drop_duplicates(subset=[id_col], keep=False)`: keeps exactly
the rows whose sample id occurs exactly once in the whole frame. -/
def dropDupIdsKeepFalse (l : List Row) : List Row :=
  l.filter (fun r => countId l r.sid == 1)

/-- The `test` component built by `CNNModel._get_training_and_test_sets`:
the concatenation of the full data with the sampled training rows,
deduplicated on the id column with `keep=False`.  The `train` component is
the outcome of `self.data.sample(frac=frac)` (random sampling of distinct
rows, performed by pandas) and therefore enters the embedding as a
parameter rather than a computation. -/
def testSet (data train : List Row) : List Row :=
  dropDupIdsKeepFalse (data ++ train)

/-- `CNNModel._get_training_and_test_sets` result as a pair. -/
def get_training_and_test_sets (data train : List Row) : List Row × List Row :=
  (train, testSet data train)

/-- `CNNModel.init_training_and_test_sets`: stores the split and raises a
`RuntimeError` when the two parts' row counts do not add up to the row count
of the full data. -/
def init_training_and_test_sets (data train : List Row) :
    Except String (List Row × List Row) :=
  let p := get_training_and_test_sets data train
  if p.1.length + p.2.length = data.length then .ok p
  else .error "Splitting of data into test/training sets resulted in information loss."

theorem countId_append (l₁ l₂ : List Row) (i : Nat) :
    countId (l₁ ++ l₂) i = countId l₁ i + countId l₂ i := by
  simp [countId, ids, List.count_append]

theorem countId_eq_one_of_mem {l : List Row} (h : (ids l).Nodup) {r : Row}
    (hr : r ∈ l) : countId l r.sid = 1 :=
  List.count_eq_one_of_mem h (List.mem_map_of_mem Row.sid hr)

theorem countId_eq_one_of_id_mem {l : List Row} (h : (ids l).Nodup) {i : Nat}
    (hi : i ∈ ids l) : countId l i = 1 :=
  List.count_eq_one_of_mem h hi

theorem countId_eq_zero {l : List Row} {i : Nat} (hi : i ∉ ids l) :
    countId l i = 0 :=
  List.count_eq_zero.mpr hi

/-- With unique ids in the data and the training rows drawn (without
duplicates) from the data, the deduplication step computes exactly the data
rows whose id was not sampled into the training part. -/
theorem testSet_eq_filter (data train : List Row)
    (hd : (ids data).Nodup) (ht : (ids train).Nodup)
    (hsub : ∀ r ∈ train, r ∈ data) :
    testSet data train = data.filter (fun r => decide (r.sid ∉ ids train)) := by
  unfold testSet dropDupIdsKeepFalse
  rw [List.filter_append]
  have htr : (train.filter (fun r => countId (data ++ train) r.sid == 1)) = [] := by
    rw [List.filter_eq_nil_iff]
    intro r hr
    have h1 : countId data r.sid = 1 := countId_eq_one_of_mem hd (hsub r hr)
    have h2 : countId train r.sid = 1 := countId_eq_one_of_mem ht hr
    simp [countId_append, h1, h2]
  rw [htr, List.append_nil]
  apply List.filter_congr
  intro r hr
  have h1 : countId data r.sid = 1 := countId_eq_one_of_mem hd hr
  by_cases hmem : r.sid ∈ ids train
  · have h2 : countId train r.sid = 1 := countId_eq_one_of_id_mem ht hmem
    simp [countId_append, h1, h2, hmem]
  · have h2 : countId train r.sid = 0 := countId_eq_zero hmem
    simp [countId_append, h1, h2, hmem]

theorem length_filter_split {α : Type} (p : α → Bool) (l : List α) :
    (l.filter p).length + (l.filter (fun a => !p a)).length = l.length := by
  induction l with
  | nil => simp
  | cons a t ih => by_cases h : p a = true <;> simp [List.filter, h] <;> omega

theorem map_filter_comp {α β : Type} (f : α → β) (p : β → Bool) (l : List α) :
    (l.filter (fun a => p (f a))).map f = (l.map f).filter p := by
  induction l with
  | nil => rfl
  | cons a t ih => by_cases h : p (f a) = true <;> simp [List.filter, h, ih]

/-- The data rows whose id was sampled are in bijection with the sampled
training rows, hence equinumerous. -/
theorem filter_sampled_length (data train : List Row)
    (hd : (ids data).Nodup) (ht : (ids train).Nodup)
    (hsub : ∀ r ∈ train, r ∈ data) :
    (data.filter (fun r => decide (r.sid ∈ ids train))).length = train.length := by
  have hd2 : (List.map Row.sid data).Nodup := hd
  have hmap : (data.filter (fun r => decide (r.sid ∈ ids train))).map Row.sid
      = (List.map Row.sid data).filter (fun i => decide (i ∈ ids train)) :=
    map_filter_comp Row.sid (fun i => decide (i ∈ ids train)) data
  have hnd : ((List.map Row.sid data).filter (fun i => decide (i ∈ ids train))).Nodup :=
    List.Nodup.sublist (List.filter_sublist _) hd2
  have hperm : ((List.map Row.sid data).filter (fun i => decide (i ∈ ids train))).Perm
      (ids train) := by
    rw [List.perm_ext_iff_of_nodup hnd ht]
    intro i
    simp only [List.mem_filter, decide_eq_true_eq]
    constructor
    · rintro ⟨-, h⟩
      exact h
    · intro h
      refine ⟨?_, h⟩
      rcases List.mem_map.mp h with ⟨r, hr, rfl⟩
      exact List.mem_map_of_mem Row.sid (hsub r hr)
  have h1 : (data.filter (fun r => decide (r.sid ∈ ids train))).length
      = ((data.filter (fun r => decide (r.sid ∈ ids train))).map Row.sid).length :=
    (List.length_map _ _).symm
  have h2 : (ids train).length = train.length := List.length_map _ _
  rw [h1, hmap, hperm.length_eq, h2]

/-- Claim C1: for every sample collection with unique sample ids and every
sampled training part (distinct rows drawn from the collection, whatever the
training fraction in (0,1) made pandas sample), `init_training_and_test_sets`
produces a training and a test subset whose row counts sum to the original
row count, covering every original row exactly once, disjoint by sample id;
and whenever the combined row count differs from the original it raises the
fatal consistency `RuntimeError` instead of returning. -/
theorem c1_split_row_count_and_disjoint (data train : List Row)
    (hd : (ids data).Nodup) (ht : (ids train).Nodup)
    (hsub : ∀ r ∈ train, r ∈ data) :
    train.length + (testSet data train).length = data.length ∧
    init_training_and_test_sets data train = .ok (train, testSet data train) ∧
    (∀ r ∈ train, ∀ s ∈ testSet data train, r.sid ≠ s.sid) ∧
    (∀ r ∈ data, r.sid ∈ ids train ∨ r ∈ testSet data train) ∧
    (∀ d t : List Row, t.length + (testSet d t).length ≠ d.length →
      init_training_and_test_sets d t =
        .error "Splitting of data into test/training sets resulted in information loss.") := by
  have hchar := testSet_eq_filter data train hd ht hsub
  have hnotconv : (fun r : Row => decide (r.sid ∉ ids train))
      = (fun r : Row => !(decide (r.sid ∈ ids train))) := by
    funext r
    simp
  have hlen : train.length + (testSet data train).length = data.length := by
    rw [hchar, hnotconv]
    have h1 := filter_sampled_length data train hd ht hsub
    have h2 := length_filter_split (fun r => decide (r.sid ∈ ids train)) data
    omega
  refine ⟨hlen, ?_, ?_, ?_, ?_⟩
  · simp [init_training_and_test_sets, get_training_and_test_sets, hlen]
  · intro r hr s hs
    rw [hchar] at hs
    have hsid : s.sid ∉ ids train := by
      have := (List.mem_filter.mp hs).2
      simpa using this
    intro heq
    exact hsid (heq ▸ List.mem_map_of_mem Row.sid hr)
  · intro r hr
    by_cases hmem : r.sid ∈ ids train
    · exact Or.inl hmem
    · refine Or.inr ?_
      rw [hchar]
      exact List.mem_filter.mpr ⟨hr, by simpa using hmem⟩
  · intro d t hne
    simp [init_training_and_test_sets, get_training_and_test_sets, hne]

/-- Witness for C1 at a concrete three-row collection and a one-row sample. -/
theorem c1_split_row_count_and_disjoint_witness :
    ([⟨2, ⟨[30, 30], 1⟩, 0⟩] : List Row).length +
      (testSet [⟨1, ⟨[30, 30], 0⟩, 1⟩, ⟨2, ⟨[30, 30], 1⟩, 0⟩, ⟨3, ⟨[30, 30], 2⟩, 5⟩]
        [⟨2, ⟨[30, 30], 1⟩, 0⟩]).length
      = ([⟨1, ⟨[30, 30], 0⟩, 1⟩, ⟨2, ⟨[30, 30], 1⟩, 0⟩, ⟨3, ⟨[30, 30], 2⟩, 5⟩] : List Row).length ∧
    init_training_and_test_sets
        [⟨1, ⟨[30, 30], 0⟩, 1⟩, ⟨2, ⟨[30, 30], 1⟩, 0⟩, ⟨3, ⟨[30, 30], 2⟩, 5⟩]
        [⟨2, ⟨[30, 30], 1⟩, 0⟩]
      = .ok ([⟨2, ⟨[30, 30], 1⟩, 0⟩],
          testSet [⟨1, ⟨[30, 30], 0⟩, 1⟩, ⟨2, ⟨[30, 30], 1⟩, 0⟩, ⟨3, ⟨[30, 30], 2⟩, 5⟩]
            [⟨2, ⟨[30, 30], 1⟩, 0⟩]) := by
  have h := c1_split_row_count_and_disjoint
    [⟨1, ⟨[30, 30], 0⟩, 1⟩, ⟨2, ⟨[30, 30], 1⟩, 0⟩, ⟨3, ⟨[30, 30], 2⟩, 5⟩]
    [⟨2, ⟨[30, 30], 1⟩, 0⟩] (by decide) (by decide) (by decide)
  exact ⟨h.1, h.2.1⟩

/-! ## CNNModelELPV instance state

The mutable attributes of a `CNNModelELPV` instance that the verified
operations read and write: the dataset frame `data`, the cached split
(`training_data`, `test_data`, both empty frames at construction), and the
monotonic color-conversion flags.  Pandas' random `DataFrame.sample` is made
explicit as the `sampleChoice` oracle field: the list of rows the next call
to `sample` would return. -/
structure ModelState where
  data : List Row
  training_data : List Row
  test_data : List Row
  sampleChoice : List Row
  grayscale : Bool
  binary_colors : Bool
deriving DecidableEq, Repr

/-- `CNNModelELPV._ensure_train_imgdata`: populates the cached split via
`init_training_and_test_sets` when `training_data` is still the empty frame,
propagating the consistency `RuntimeError` when the split check fails. -/
def ensure_train_imgdata (st : ModelState) : Except String ModelState :=
  if st.training_data.isEmpty then
    match init_training_and_test_sets st.data st.sampleChoice with
    | .ok (tr, te) => .ok { st with training_data := tr, test_data := te }
    | .error e => .error e
  else .ok st

/-- `CNNModelELPV.train_images`: ensures the split, then stacks the image
column of `training_data`. -/
def train_images (st : ModelState) : Except String (ModelState × List Img) :=
  (ensure_train_imgdata st).map fun st2 => (st2, st2.training_data.map Row.img)

/-- `CNNModelELPV.train_labels`: ensures the split, then reads the quality
column of `training_data`. -/
def train_labels (st : ModelState) : Except String (ModelState × List ℚ) :=
  (ensure_train_imgdata st).map fun st2 => (st2, st2.training_data.map Row.quality)

/-- `CNNModelELPV.test_images`: ensures the split, then stacks the image
column of `training_data` (the source reads `self.training_data`, not
`self.test_data`). -/
def test_images (st : ModelState) : Except String (ModelState × List Img) :=
  (ensure_train_imgdata st).map fun st2 => (st2, st2.training_data.map Row.img)

/-- `CNNModelELPV.test_labels`: ensures the split, then reads the quality
column of `training_data` (the source reads `self.training_data`, not
`self.test_data`). -/
def test_labels (st : ModelState) : Except String (ModelState × List ℚ) :=
  (ensure_train_imgdata st).map fun st2 => (st2, st2.training_data.map Row.quality)

/-- Claim C3: for every model state the `test_images` property returns
exactly what `train_images` returns and `test_labels` returns exactly what
`train_labels` returns — all four are computed from the cached training
subset, so the held-out test subset is never the source of evaluation data. -/
theorem c3_test_props_equal_train_props (st : ModelState) :
    test_images st = train_images st ∧ test_labels st = train_labels st :=
  ⟨rfl, rfl⟩

/-! ## Color conversion (grayscale / binary) -/

/-- `CNNModelELPV.images_to_grayscale_nonreversible`, parametrized by the
external color primitive `rgb_to_grayscale` (argument `g`).  Raises the
state `ValueError` when the binary flag is set; otherwise, when the
grayscale flag is not yet set, inspects the first image of the frame
(`IndexError` on an empty frame, mirroring `.iloc[0]`, and on an empty
shape tuple, mirroring `shape[-1]`) and converts every image — setting the
flag — only when its last shape entry is 3. -/
def images_to_grayscale_nonreversible (g : Img → Img) (st : ModelState) :
    Except String ModelState :=
  if st.binary_colors then
    .error "Cannot convert to grayscale: already converted to binary colors."
  else if !st.grayscale then
    match st.data with
    | [] => .error "IndexError: single positional indexer is out-of-bounds"
    | r :: _ =>
      match r.img.shape.getLast? with
      | none => .error "IndexError: tuple index out of range"
      | some c =>
        if c = 3 then
          .ok { st with
            data := st.data.map fun row => { row with img := g row.img },
            grayscale := true }
        else .ok st
  else .ok st

/-- Claim C5: grayscale conversion raises a state error whenever the
binary-converted flag is already set; and it is idempotent in effect: once a
call has returned successfully with the grayscale flag set, a further call
returns the state unchanged (every image untouched), guarded by the flag. -/
theorem c5_grayscale_state_error_and_idempotent (g : Img → Img) (st : ModelState) :
    (st.binary_colors = true →
      images_to_grayscale_nonreversible g st =
        .error "Cannot convert to grayscale: already converted to binary colors.") ∧
    (∀ st2, images_to_grayscale_nonreversible g st = .ok st2 →
      st2.grayscale = true →
      images_to_grayscale_nonreversible g st2 = .ok st2) := by
  constructor
  · intro hb
    simp [images_to_grayscale_nonreversible, hb]
  · intro st2 hok hgray
    have hb : st.binary_colors = false := by
      by_contra hb
      rw [Bool.not_eq_false] at hb
      simp [images_to_grayscale_nonreversible, hb] at hok
    have hb2 : st2.binary_colors = false := by
      unfold images_to_grayscale_nonreversible at hok
      rw [hb] at hok
      simp only [Bool.false_eq_true, if_false] at hok
      split at hok
      all_goals try split at hok
      all_goals try split at hok
      all_goals try split at hok
      all_goals try simp at hok
      all_goals try rw [← hok]
      all_goals simp [hb]
    simp [images_to_grayscale_nonreversible, hb2, hgray]

/-- Witness for C5: the state error fires on a binary-converted state, and a
successfully converted three-channel state is left unchanged by a second
call. -/
theorem c5_grayscale_witness :
    (images_to_grayscale_nonreversible id
        ⟨[⟨1, ⟨[30, 30, 3], 0⟩, 1⟩], [], [], [], false, true⟩ =
      .error "Cannot convert to grayscale: already converted to binary colors.") ∧
    (images_to_grayscale_nonreversible id
        ⟨[⟨1, ⟨[30, 30, 3], 0⟩, 1⟩], [], [], [], true, false⟩ =
      .ok ⟨[⟨1, ⟨[30, 30, 3], 0⟩, 1⟩], [], [], [], true, false⟩) := by
  constructor
  · exact (c5_grayscale_state_error_and_idempotent id
      ⟨[⟨1, ⟨[30, 30, 3], 0⟩, 1⟩], [], [], [], false, true⟩).1 rfl
  · exact (c5_grayscale_state_error_and_idempotent id
      ⟨[⟨1, ⟨[30, 30, 3], 0⟩, 1⟩], [], [], [], false, false⟩).2
      ⟨[⟨1, ⟨[30, 30, 3], 0⟩, 1⟩], [], [], [], true, false⟩ rfl rfl

/-! ## Label partitioning by quality score -/

/-- `CNNModel.FLOAT_COMP_TOL`, the default float comparison tolerance 1e-8. -/
def FLOAT_COMP_TOL : ℚ := 1 / 100000000

/-- numpy's default relative tolerance `rtol = 1e-5`, left in force because
the source passes only `atol=` to `np.isclose`. -/
def npRtolDefault : ℚ := 1 / 100000

/-- `np.isclose(a, b, atol=atol)` per the numpy criterion
`absolute(a - b) <= (atol + rtol * absolute(b))`. -/
def npIsclose (a b atol : ℚ) : Bool :=
  decide (|a - b| ≤ atol + npRtolDefault * |b|)

/-- The three label groups returned by `get_train_data_by_label`
(image-column values of the pass / review / fail selections). -/
structure DataByLabelsELPV where
  pass_ : List Img
  review : List Img
  fail : List Img
deriving DecidableEq, Repr

/-- `CNNModelELPV.get_train_data_by_label`: defaults the tolerance to
`FLOAT_COMP_TOL`, ensures the split exists, then partitions the full data:
pass rows satisfy `np.isclose(quality, 1.0, atol=tolerance)`, review rows
satisfy `quality > 0.01`, fail rows satisfy
`np.isclose(quality, 0.0, atol=tolerance)`; each group is the image column
of its selection. -/
def get_train_data_by_label (st : ModelState) (tolerance : Option ℚ) :
    Except String (ModelState × DataByLabelsELPV) :=
  let t := tolerance.getD FLOAT_COMP_TOL
  (ensure_train_imgdata st).map fun st2 =>
    (st2,
      { pass_ := (st2.data.filter fun r => npIsclose r.quality 1 t).map Row.img,
        review := (st2.data.filter fun r => decide (r.quality > 1 / 100)).map Row.img,
        fail := (st2.data.filter fun r => npIsclose r.quality 0 t).map Row.img })

theorem ensure_nonempty (st : ModelState) (h : st.training_data.isEmpty = false) :
    ensure_train_imgdata st = .ok st := by
  unfold ensure_train_imgdata
  rw [h]
  simp

theorem ensure_preserves_data {st st2 : ModelState}
    (h : ensure_train_imgdata st = .ok st2) : st2.data = st.data := by
  unfold ensure_train_imgdata at h
  split at h
  · split at h
    · simp only [Except.ok.injEq] at h
      rw [← h]
    · simp at h
  · simp only [Except.ok.injEq] at h
    rw [← h]

theorem get_train_data_by_label_spec (st : ModelState) (tol : Option ℚ)
    (st2 : ModelState) (gs : DataByLabelsELPV)
    (h : get_train_data_by_label st tol = .ok (st2, gs)) :
    st2.data = st.data ∧
    gs.pass_ = (st.data.filter fun r =>
      npIsclose r.quality 1 (tol.getD FLOAT_COMP_TOL)).map Row.img ∧
    gs.review = (st.data.filter fun r => decide (r.quality > 1 / 100)).map Row.img ∧
    gs.fail = (st.data.filter fun r =>
      npIsclose r.quality 0 (tol.getD FLOAT_COMP_TOL)).map Row.img := by
  unfold get_train_data_by_label at h
  cases hE : ensure_train_imgdata st with
  | error e => rw [hE] at h; simp [Except.map] at h
  | ok st3 =>
    rw [hE] at h
    simp only [Except.map, Except.ok.injEq, Prod.mk.injEq] at h
    have hdata : st3.data = st.data := ensure_preserves_data hE
    rcases h with ⟨h1, h2⟩
    refine ⟨h1 ▸ hdata, ?_, ?_, ?_⟩ <;> rw [← h2, hdata]

theorem get_train_data_singleton_ttf (r : Row) (st : ModelState) (t : ℚ)
    (hst : st.data = [r]) (hne : st.training_data.isEmpty = false)
    (h1 : npIsclose r.quality 1 t = true)
    (h2 : decide (r.quality > 1 / 100) = true)
    (h3 : npIsclose r.quality 0 t = false) :
    get_train_data_by_label st (some t) = .ok (st, ⟨[r.img], [r.img], []⟩) := by
  unfold get_train_data_by_label
  rw [ensure_nonempty st hne]
  simp only [Except.map, Option.getD, hst, List.filter, h1, h2, h3, List.map]

theorem npIsclose_one (q t : ℚ) :
    npIsclose q 1 t = decide (|q - 1| ≤ t + 1 / 100000) := by
  unfold npIsclose npRtolDefault
  apply decide_eq_decide.mpr
  norm_num

theorem npIsclose_zero (q t : ℚ) :
    npIsclose q 0 t = decide (|q| ≤ t) := by
  unfold npIsclose npRtolDefault
  apply decide_eq_decide.mpr
  norm_num

/-- Claim C6 (amended): for every collection and nonnegative tolerance `t`,
scores 1.0 / 0.0 / 0.5 land in pass / fail / review respectively; pass means
within `t + 1e-5` of 1.0 (`np.isclose` keeps its default relative tolerance
`rtol = 1e-5`, contributing `rtol * |1.0|`), review means strictly greater
than 0.01, fail means within `t` of 0.0 (the relative term vanishes at 0.0),
and an unspecified tolerance defaults to 1e-8. -/
theorem c6_label_partition_amended (st : ModelState) (t : ℚ) (ht : 0 ≤ t)
    (st2 : ModelState) (gs : DataByLabelsELPV)
    (h : get_train_data_by_label st (some t) = .ok (st2, gs)) :
    gs.pass_ = (st.data.filter fun r =>
      decide (|r.quality - 1| ≤ t + 1 / 100000)).map Row.img ∧
    gs.review = (st.data.filter fun r => decide (r.quality > 1 / 100)).map Row.img ∧
    gs.fail = (st.data.filter fun r => decide (|r.quality| ≤ t)).map Row.img ∧
    (∀ r ∈ st.data, r.quality = 1 → r.img ∈ gs.pass_) ∧
    (∀ r ∈ st.data, r.quality = 0 → r.img ∈ gs.fail) ∧
    (∀ r ∈ st.data, r.quality = 1 / 2 → r.img ∈ gs.review) ∧
    (∀ s : ModelState,
      get_train_data_by_label s none = get_train_data_by_label s (some FLOAT_COMP_TOL)) ∧
    FLOAT_COMP_TOL = 1 / 100000000 := by
  obtain ⟨hdata, hpass, hreview, hfail⟩ := get_train_data_by_label_spec st (some t) st2 gs h
  have hpass2 : gs.pass_ = (st.data.filter fun r =>
      decide (|r.quality - 1| ≤ t + 1 / 100000)).map Row.img := by
    rw [hpass]
    congr 1
    apply List.filter_congr
    intro r hr
    exact npIsclose_one r.quality t
  have hfail2 : gs.fail = (st.data.filter fun r =>
      decide (|r.quality| ≤ t)).map Row.img := by
    rw [hfail]
    congr 1
    apply List.filter_congr
    intro r hr
    exact npIsclose_zero r.quality t
  refine ⟨hpass2, hreview, hfail2, ?_, ?_, ?_, fun s => rfl, rfl⟩
  · intro r hr hq
    rw [hpass2]
    refine List.mem_map.mpr ⟨r, List.mem_filter.mpr ⟨hr, ?_⟩, rfl⟩
    rw [hq]
    simp only [decide_eq_true_eq, sub_self, abs_zero]
    positivity
  · intro r hr hq
    rw [hfail2]
    refine List.mem_map.mpr ⟨r, List.mem_filter.mpr ⟨hr, ?_⟩, rfl⟩
    rw [hq]
    simpa using ht
  · intro r hr hq
    rw [hreview]
    refine List.mem_map.mpr ⟨r, List.mem_filter.mpr ⟨hr, ?_⟩, rfl⟩
    rw [hq]
    norm_num

/-- Counterexample to C6 as stated: with tolerance 0, a quality score of
`1 + 1/200000` lands in the pass group even though it is not within the
given tolerance of 1.0 — `np.isclose` adds its default relative tolerance
`1e-5 * |1.0|` on top of the supplied absolute tolerance. -/
theorem c6_pass_not_within_tolerance_counterexample :
    get_train_data_by_label
        ⟨[⟨1, ⟨[30, 30], 0⟩, 1 + 1 / 200000⟩], [⟨1, ⟨[30, 30], 0⟩, 1 + 1 / 200000⟩],
          [], [], false, false⟩ (some 0) =
      .ok (⟨[⟨1, ⟨[30, 30], 0⟩, 1 + 1 / 200000⟩], [⟨1, ⟨[30, 30], 0⟩, 1 + 1 / 200000⟩],
          [], [], false, false⟩,
        ⟨[⟨[30, 30], 0⟩], [⟨[30, 30], 0⟩], []⟩) ∧
    ¬(|(1 + 1 / 200000 : ℚ) - 1| ≤ 0) := by
  have hq : (1 : ℚ) + 1 / 200000 - 1 = 1 / 200000 := by ring
  have f1 : npIsclose (1 + 1 / 200000) 1 0 = true := by
    rw [npIsclose_one]
    refine decide_eq_true ?_
    rw [hq, abs_of_nonneg (by norm_num : (0 : ℚ) ≤ 1 / 200000)]
    norm_num
  have f2 : (decide ((1 + 1 / 200000 : ℚ) > 1 / 100)) = true :=
    decide_eq_true (by norm_num)
  have f3 : npIsclose (1 + 1 / 200000) 0 0 = false := by
    rw [npIsclose_zero]
    refine decide_eq_false ?_
    rw [abs_of_nonneg (by norm_num : (0 : ℚ) ≤ 1 + 1 / 200000)]
    norm_num
  constructor
  · exact get_train_data_singleton_ttf ⟨1, ⟨[30, 30], 0⟩, 1 + 1 / 200000⟩ _ 0 rfl rfl f1 f2 f3
  · rw [hq, abs_of_nonneg (by norm_num : (0 : ℚ) ≤ 1 / 200000)]
    norm_num

/-- Witness for C6 (amended) at tolerance 0 on a singleton collection whose
row scores 1.0. -/
theorem c6_label_partition_amended_witness :
    (⟨[30, 30], 0⟩ : Img) ∈
      (DataByLabelsELPV.mk [⟨[30, 30], 0⟩] [⟨[30, 30], 0⟩] []).pass_ ∧
    FLOAT_COMP_TOL = 1 / 100000000 := by
  have f1 : npIsclose 1 1 0 = true := by
    rw [npIsclose_one]
    refine decide_eq_true ?_
    simp only [sub_self, abs_zero]
    norm_num
  have f2 : (decide ((1 : ℚ) > 1 / 100)) = true := decide_eq_true (by norm_num)
  have f3 : npIsclose 1 0 0 = false := by
    rw [npIsclose_zero]
    refine decide_eq_false ?_
    rw [abs_one]
    norm_num
  have hrun : get_train_data_by_label
      ⟨[⟨1, ⟨[30, 30], 0⟩, 1⟩], [⟨1, ⟨[30, 30], 0⟩, 1⟩], [], [], false, false⟩ (some 0) =
      .ok (⟨[⟨1, ⟨[30, 30], 0⟩, 1⟩], [⟨1, ⟨[30, 30], 0⟩, 1⟩], [], [], false, false⟩,
        ⟨[⟨[30, 30], 0⟩], [⟨[30, 30], 0⟩], []⟩) :=
    get_train_data_singleton_ttf ⟨1, ⟨[30, 30], 0⟩, 1⟩ _ 0 rfl rfl f1 f2 f3
  have h := c6_label_partition_amended
    ⟨[⟨1, ⟨[30, 30], 0⟩, 1⟩], [⟨1, ⟨[30, 30], 0⟩, 1⟩], [], [], false, false⟩ 0 le_rfl
    ⟨[⟨1, ⟨[30, 30], 0⟩, 1⟩], [⟨1, ⟨[30, 30], 0⟩, 1⟩], [], [], false, false⟩
    ⟨[⟨[30, 30], 0⟩], [⟨[30, 30], 0⟩], []⟩ hrun
  exact ⟨h.2.2.2.1 ⟨1, ⟨[30, 30], 0⟩, 1⟩ (by simp) rfl, h.2.2.2.2.2.2.2⟩

/-- Claim C8: whenever the collection holds a row with quality score exactly
1.0, that row's image lands both in the pass group and in the review group
(1.0 is strictly greater than the 0.01 review threshold), so the returned
label groups are not pairwise disjoint. -/
theorem c8_pass_review_overlap (st : ModelState) (t : ℚ) (ht : 0 ≤ t)
    (st2 : ModelState) (gs : DataByLabelsELPV)
    (h : get_train_data_by_label st (some t) = .ok (st2, gs))
    (r : Row) (hr : r ∈ st.data) (hq : r.quality = 1) :
    r.img ∈ gs.pass_ ∧ r.img ∈ gs.review ∧
    ∃ x : Img, x ∈ gs.pass_ ∧ x ∈ gs.review := by
  obtain ⟨hdata, hpass, hreview, hfail⟩ := get_train_data_by_label_spec st (some t) st2 gs h
  have h1 : r.img ∈ gs.pass_ := by
    rw [hpass]
    refine List.mem_map.mpr ⟨r, List.mem_filter.mpr ⟨hr, ?_⟩, rfl⟩
    rw [npIsclose_one, hq]
    simp only [decide_eq_true_eq, sub_self, abs_zero]
    positivity
  have h2 : r.img ∈ gs.review := by
    rw [hreview]
    refine List.mem_map.mpr ⟨r, List.mem_filter.mpr ⟨hr, ?_⟩, rfl⟩
    rw [hq]
    norm_num
  exact ⟨h1, h2, r.img, h1, h2⟩

/-- Witness for C8 on a singleton collection whose only row scores 1.0. -/
theorem c8_pass_review_overlap_witness :
    (⟨[30, 30], 7⟩ : Img) ∈
      (DataByLabelsELPV.mk [⟨[30, 30], 7⟩] [⟨[30, 30], 7⟩] []).pass_ ∧
    (⟨[30, 30], 7⟩ : Img) ∈
      (DataByLabelsELPV.mk [⟨[30, 30], 7⟩] [⟨[30, 30], 7⟩] []).review := by
  have f1 : npIsclose 1 1 0 = true := by
    rw [npIsclose_one]
    refine decide_eq_true ?_
    simp only [sub_self, abs_zero]
    norm_num
  have f2 : (decide ((1 : ℚ) > 1 / 100)) = true := decide_eq_true (by norm_num)
  have f3 : npIsclose 1 0 0 = false := by
    rw [npIsclose_zero]
    refine decide_eq_false ?_
    rw [abs_one]
    norm_num
  have hrun : get_train_data_by_label
      ⟨[⟨4, ⟨[30, 30], 7⟩, 1⟩], [⟨4, ⟨[30, 30], 7⟩, 1⟩], [], [], false, false⟩ (some 0) =
      .ok (⟨[⟨4, ⟨[30, 30], 7⟩, 1⟩], [⟨4, ⟨[30, 30], 7⟩, 1⟩], [], [], false, false⟩,
        ⟨[⟨[30, 30], 7⟩], [⟨[30, 30], 7⟩], []⟩) :=
    get_train_data_singleton_ttf ⟨4, ⟨[30, 30], 7⟩, 1⟩ _ 0 rfl rfl f1 f2 f3
  have h := c8_pass_review_overlap
    ⟨[⟨4, ⟨[30, 30], 7⟩, 1⟩], [⟨4, ⟨[30, 30], 7⟩, 1⟩], [], [], false, false⟩ 0 le_rfl
    ⟨[⟨4, ⟨[30, 30], 7⟩, 1⟩], [⟨4, ⟨[30, 30], 7⟩, 1⟩], [], [], false, false⟩
    ⟨[⟨[30, 30], 7⟩], [⟨[30, 30], 7⟩], []⟩ hrun
    ⟨4, ⟨[30, 30], 7⟩, 1⟩ (by simp) rfl
  exact ⟨h.1, h.2.1⟩

/-! ## Image shape resolution -/

/-- `np.squeeze` at shape level: removes every axis of size one. -/
def npSqueeze (s : List Nat) : List Nat := s.filter (fun d => d != 1)

/-- `CNNModelELPV.squeeze_images`: applies `np.squeeze` to every image of
the frame in place. -/
def squeeze_images (st : ModelState) : ModelState :=
  { st with data := st.data.map fun r =>
      { r with img := { r.img with shape := npSqueeze r.img.shape } } }

/-- The `ImageShape` NamedTuple of the source: exactly a rows and a cols
field, so it can only be built from a two-entry shape. -/
structure ImageShape where
  rows : Nat
  cols : Nat
deriving DecidableEq, Repr

/-- The ways `CNNModelELPV.image_shape` can raise: the explicit `ValueError`
naming the offending shapes, the `TypeError` from unpacking a shape whose
arity is not two into `ImageShape(rows, cols)`, and the `IndexError` from
`list(shapes)[0]` on an empty frame. -/
inductive ShapeError where
  | mismatch (shapes : List (List Nat))
  | badArity (shape : List Nat)
  | emptyFrame
deriving DecidableEq, Repr

/-- `CNNModelELPV.image_shape`: collects the distinct image shapes; if more
than one exists, squeezes every image and recollects; if more than one still
exists, raises the `ValueError` carrying the remaining distinct shapes;
otherwise unpacks the single remaining shape into `ImageShape(rows, cols)`
(a `TypeError` unless it has exactly two entries).  The squeeze mutates the
frame, so the possibly-squeezed state is returned alongside the shape. -/
def image_shape (st : ModelState) : Except ShapeError (ModelState × ImageShape) :=
  let shapes := (st.data.map fun r => r.img.shape).dedup
  let st1 := if shapes.length > 1 then squeeze_images st else st
  let shapes2 := (st1.data.map fun r => r.img.shape).dedup
  if shapes2.length > 1 then .error (.mismatch shapes2)
  else
    match shapes2 with
    | [s] =>
      match s with
      | [rows, cols] => .ok (st1, ⟨rows, cols⟩)
      | _ => .error (.badArity s)
    | _ => .error .emptyFrame

/-- Claim C7: a collection holding images of shapes (30,30,1) and (30,30)
unifies, after the single squeeze remediation, to the shape (30,30); a
collection with shapes (30,30) and (40,40) raises the shape-mismatch error
whose payload names both offending shapes. -/
theorem c7_shape_resolution_squeeze_and_mismatch :
    image_shape ⟨[⟨1, ⟨[30, 30, 1], 0⟩, 1⟩, ⟨2, ⟨[30, 30], 1⟩, 0⟩], [], [], [], false, false⟩
      = .ok (⟨[⟨1, ⟨[30, 30], 0⟩, 1⟩, ⟨2, ⟨[30, 30], 1⟩, 0⟩], [], [], [], false, false⟩,
          ⟨30, 30⟩) ∧
    image_shape ⟨[⟨1, ⟨[30, 30], 0⟩, 1⟩, ⟨2, ⟨[40, 40], 1⟩, 0⟩], [], [], [], false, false⟩
      = .error (.mismatch [[30, 30], [40, 40]]) ∧
    [30, 30] ∈ [[30, 30], [40, 40]] ∧ [40, 40] ∈ [[30, 30], [40, 40]] := by
  refine ⟨?_, ?_, by decide, by decide⟩ <;> rfl

theorem dedup_const {α : Type} [DecidableEq α] (l : List α) (a : α)
    (hne : l ≠ []) (h : ∀ x ∈ l, x = a) : l.dedup = [a] := by
  have hsub : ∀ x ∈ l.dedup, x = a := fun x hx => h x (List.mem_dedup.mp hx)
  have hmem : a ∈ l.dedup := by
    apply List.mem_dedup.mpr
    cases l with
    | nil => exact absurd rfl hne
    | cons b tl =>
      have hb : b = a := h b (List.mem_cons_self b tl)
      rw [← hb]
      exact List.mem_cons_self b tl
  have hnd := l.nodup_dedup
  cases hd : l.dedup with
  | nil => rw [hd] at hmem; simp at hmem
  | cons x tl =>
    have hx : x = a := hsub x (by rw [hd]; exact List.mem_cons_self x tl)
    cases tl with
    | nil => rw [hx]
    | cons y tl2 =>
      have hy : y = a := hsub y (by rw [hd]; simp)
      rw [hd] at hnd
      rw [List.nodup_cons] at hnd
      exact absurd (by rw [hx, hy]; simp : x ∈ y :: tl2) hnd.1

/-- Claim C10: when every image of a nonempty collection already shares one
common shape whose number of dimensions is not two, `image_shape` raises
(the squeeze remediation never fires since only one distinct shape exists,
and the two-field `ImageShape` record cannot be built from the shape). -/
theorem c10_uniform_non2d_shape_raises (st : ModelState) (s : List Nat)
    (hne : st.data ≠ []) (hall : ∀ r ∈ st.data, r.img.shape = s)
    (hdim : s.length ≠ 2) :
    image_shape st = .error (.badArity s) := by
  have hdd : (st.data.map fun r => r.img.shape).dedup = [s] := by
    apply dedup_const
    · simpa using hne
    · intro x hx
      rcases List.mem_map.mp hx with ⟨r, hr, rfl⟩
      exact hall r hr
  unfold image_shape
  simp only [hdd, List.length_cons, List.length_nil, gt_iff_lt, Nat.lt_irrefl, if_false]
  cases s with
  | nil => rfl
  | cons a t =>
    cases t with
    | nil => rfl
    | cons b t2 =>
      cases t2 with
      | nil => exact absurd rfl hdim
      | cons c t3 => rfl

/-- Witness for C10: a singleton collection whose image has the
three-dimensional shape (30,30,3). -/
theorem c10_uniform_non2d_shape_raises_witness :
    image_shape ⟨[⟨1, ⟨[30, 30, 3], 5⟩, 1⟩], [], [], [], false, false⟩
      = .error (.badArity [30, 30, 3]) :=
  c10_uniform_non2d_shape_raises
    ⟨[⟨1, ⟨[30, 30, 3], 5⟩, 1⟩], [], [], [], false, false⟩ [30, 30, 3]
    (by decide) (by decide) (by decide)

/-! ## Model configuration -/

/-- The `ValidImgType` enumeration: BINARY, GRAYSCALE, RGB. -/
inductive ValidImgType where
  | BINARY
  | GRAYSCALE
  | RGB
deriving DecidableEq, Repr

/-- The `CNNModelConfig` dataclass (TensorFlow objects such as the optimizer
and loss function are carried as identifier strings; the stored image type
is the `_img_type` backing field of the validated property). -/
structure CNNModelConfig where
  n_epochs : Nat
  training_frac : ℚ
  n_nodes_layer2 : Nat
  n_nodes_layer3 : Nat
  activation_func_id : String
  optimizer : String
  metrics : List String
  loss_function : String
  img_type : ValidImgType
deriving DecidableEq, Repr

/-- The dataclass defaults of `CNNModelConfig`; the epoch count depends on
GPU availability. -/
def mkCNNModelConfig (gpuAvailable : Bool) : CNNModelConfig :=
  { n_epochs := if gpuAvailable then 1024 else 64,
    training_frac := 13 / 20,
    n_nodes_layer2 := 128,
    n_nodes_layer3 := 10,
    activation_func_id := "relu",
    optimizer := "adam",
    metrics := ["accuracy"],
    loss_function := "SparseCategoricalCrossentropy",
    img_type := .BINARY }

/-- A Python value assigned to the `img_type` property: either a member of
the `ValidImgType` enumeration (the `isinstance` check passes), or any other
object, modelled by a string token. -/
inductive ImgTypeAssignment where
  | member (t : ValidImgType)
  | other (tok : String)
deriving DecidableEq, Repr

/-- Outcome of the `img_type` property setter: the configuration as
observable after the call (unchanged when the setter raised before
assigning) and the raised error, if any. -/
structure SetImgTypeResult where
  cfg : CNNModelConfig
  err : Option String
deriving DecidableEq, Repr

/-- The `img_type` property setter of `CNNModelConfig`: raises a
`ValueError` — before touching the backing field — for any value that is
not a `ValidImgType` member, and stores members. -/
def set_img_type (cfg : CNNModelConfig) (v : ImgTypeAssignment) : SetImgTypeResult :=
  match v with
  | .member t => ⟨{ cfg with img_type := t }, none⟩
  | .other _ =>
    ⟨cfg, some "Invalid image type for parameter img_type. Valid: BINARY, GRAYSCALE, RGB"⟩

/-- Claim C9: assigning the image-type field succeeds for each of BINARY,
GRAYSCALE and RGB, and assigning any value outside the enumeration raises a
validation error while leaving the stored image type unchanged. -/
theorem c9_img_type_setter_validation (cfg : CNNModelConfig) :
    (set_img_type cfg (.member .BINARY)).err = none ∧
    (set_img_type cfg (.member .BINARY)).cfg.img_type = .BINARY ∧
    (set_img_type cfg (.member .GRAYSCALE)).err = none ∧
    (set_img_type cfg (.member .GRAYSCALE)).cfg.img_type = .GRAYSCALE ∧
    (set_img_type cfg (.member .RGB)).err = none ∧
    (set_img_type cfg (.member .RGB)).cfg.img_type = .RGB ∧
    (∀ tok : String, (set_img_type cfg (.other tok)).err.isSome = true ∧
      (set_img_type cfg (.other tok)).cfg = cfg) :=
  ⟨rfl, rfl, rfl, rfl, rfl, rfl, fun _ => ⟨rfl, rfl⟩⟩

/-! ## Network life cycle and orchestration -/

/-- Observable operations issued by the keras-facing methods. -/
inductive Ev where
  | grayscaleEv
  | binaryEv
  | amplifyEv
  | unsqueezeEv
  | squeezeEv
  | loadWeightsEv
  | buildEv
  | compileEv
  | fitEv
  | evalEv
  | predictEv
  | saveEv
  | plotEv
  | sleepEv
deriving DecidableEq, Repr

/-- The network-related flags of a `CNNModelELPV`: whether `self._model`
holds a constructed network, plus `_compiled` and `_fitted`. -/
structure NetState where
  modelExists : Bool
  compiled : Bool
  fitted : Bool
deriving DecidableEq, Repr

/-- `CNNModelELPV.build`: constructs a fresh Sequential network. -/
def buildNet (s : NetState) : NetState × List Ev :=
  ({ s with modelExists := true }, [.buildEv])

/-- `CNNModelELPV._compile`: builds first when no network exists, then
always performs the keras compile call and sets the `_compiled` flag — the
flag is written here, never read. -/
def compileNet (s : NetState) : NetState × List Ev :=
  let bp := if s.modelExists then (s, ([] : List Ev)) else buildNet s
  ({ bp.1 with compiled := true }, bp.2 ++ [.compileEv])

/-- `CNNModelELPV._fit`: compiles first when the `_compiled` flag is unset,
then fits and sets the `_fitted` flag. -/
def fitNet (s : NetState) : NetState × List Ev :=
  let cp := if s.compiled then (s, ([] : List Ev)) else compileNet s
  ({ cp.1 with fitted := true }, cp.2 ++ [.fitEv])

/-- `CNNModelELPV.evaluate`: always calls `_compile` and `_fit`, then
evaluates on the test set and computes predictions through the derived
probability model. -/
def evaluateNet (s : NetState) : NetState × List Ev :=
  let cp := compileNet s
  let fp := fitNet cp.1
  (fp.1, cp.2 ++ fp.2 ++ [.evalEv, .predictEv])

/-- `CNNModelELPV.load`: loads weights only when the file exists and a
network object exists; raises `FileNotFoundError` when the file is missing;
silently no-ops when the file exists but no network has been built. -/
def loadNet (weightsExist : Bool) (s : NetState) : Except String (NetState × List Ev) :=
  if weightsExist && s.modelExists then .ok (s, [.loadWeightsEv])
  else if !weightsExist then
    .error "FileNotFoundError: cannot load model from non-existing file"
  else .ok (s, [])

/-- Counterexample to C4 as stated: from a freshly constructed model a first
`_compile` sets the flag, yet a second explicit `_compile` call still
performs the keras compile work — its event trace is `[compileEv]`, not the
empty short-circuit the claim asserts. -/
theorem c4_second_compile_recompiles_counterexample :
    (compileNet ⟨false, false, false⟩).1.compiled = true ∧
    (compileNet (compileNet ⟨false, false, false⟩).1).2 = [Ev.compileEv] ∧
    ¬((compileNet (compileNet ⟨false, false, false⟩).1).2 = []) :=
  ⟨rfl, rfl, by decide⟩

/-- Claim C4 (amended): `_compile` sets the compiled flag but never reads
it, so a second explicit `_compile` call recompiles the network (no
short-circuit).  The flag short-circuits recompilation only indirectly,
through `_fit`, which skips `_compile` when the flag is set. -/
theorem c4_compile_flag_amended (s : NetState) (h : s.compiled = true) :
    Ev.compileEv ∈ (compileNet s).2 ∧ (fitNet s).2 = [Ev.fitEv] := by
  constructor
  · unfold compileNet
    by_cases hm : s.modelExists <;> simp [hm, buildNet]
  · unfold fitNet
    simp [h]

/-- Witness for C4 (amended) on a built-and-compiled state. -/
theorem c4_compile_flag_amended_witness :
    Ev.compileEv ∈ (compileNet ⟨true, true, false⟩).2 ∧
    (fitNet ⟨true, true, false⟩).2 = [Ev.fitEv] :=
  c4_compile_flag_amended ⟨true, true, false⟩ rfl

/-- External circumstances of one `full_run_from_dataset` call: whether the
dataset carries several panel types, the channel count of its first image
(none for an empty frame), whether amplification is requested and whether
its first attempt raises an `ImageDimensionError`, whether the weights file
exists, whether retraining is forced, GPU availability, whether the GPU
attempt raises an `InternalError`, and whether plotting fails. -/
structure RunEnv where
  multiType : Bool
  firstImgChannels : Option Nat
  amplifyFlag : Bool
  amplifyDimError : Bool
  weightsExist : Bool
  forceRetrain : Bool
  gpuAvailable : Bool
  gpuInternalError : Bool
  plotFails : Bool
deriving DecidableEq, Repr

/-- Event trace of `images_to_grayscale_nonreversible` on a fresh model
(neither color flag set): converts only when the first image has three
channels; `IndexError` on an empty frame. -/
def grayscaleSection (firstImgChannels : Option Nat) : Except String (List Ev) :=
  match firstImgChannels with
  | none => .error "IndexError: single positional indexer is out-of-bounds"
  | some c => if c = 3 then .ok [.grayscaleEv] else .ok []

/-- Event trace of the color-conversion step of `full_run_from_dataset` on
the freshly constructed model: GRAYSCALE converts to grayscale, BINARY
ensures grayscale first and then converts to binary, RGB does nothing. -/
def colorSection (firstImgChannels : Option Nat) : ValidImgType → Except String (List Ev)
  | .GRAYSCALE => grayscaleSection firstImgChannels
  | .BINARY =>
    match grayscaleSection firstImgChannels with
    | .error e => .error e
    | .ok evs => .ok (evs ++ [.binaryEv])
  | .RGB => .ok []

/-- Event trace of `CNNModelELPV.amplify_data` within the orchestration. -/
def amplifySection (env : RunEnv) : List Ev :=
  if env.amplifyFlag then
    if env.amplifyDimError then [.amplifyEv, .unsqueezeEv, .amplifyEv, .squeezeEv]
    else [.amplifyEv]
  else []

/-- The training/evaluation branch of `full_run_from_dataset`: when the
weights file exists and retraining is not forced, `load` then `evaluate`;
otherwise build and evaluate on the GPU — with a single CPU fallback, after
a one-second pause, on an internal error (modelled as arising in the fit
step of the GPU attempt, after build and compile) — or directly on the CPU
when no GPU is available. -/
def runBranch (env : RunEnv) (s0 : NetState) : Except String (NetState × List Ev) :=
  if env.weightsExist && !env.forceRetrain then
    match loadNet env.weightsExist s0 with
    | .error e => .error e
    | .ok (s1, le) =>
      let ep := evaluateNet s1
      .ok (ep.1, le ++ ep.2)
  else if env.gpuAvailable then
    if env.gpuInternalError then
      let bp := buildNet s0
      let cp := compileNet bp.1
      let bp2 := buildNet cp.1
      let ep := evaluateNet bp2.1
      .ok (ep.1, bp.2 ++ cp.2 ++ [.sleepEv] ++ bp2.2 ++ ep.2)
    else
      let bp := buildNet s0
      let ep := evaluateNet bp.1
      .ok (ep.1, bp.2 ++ ep.2)
  else
    let bp := buildNet s0
    let ep := evaluateNet bp.1
    .ok (ep.1, bp.2 ++ ep.2)

/-- `CNNModelELPV.full_run_from_dataset` at event level: rejects a
multi-type dataset with a `ValueError`; converts colors per the freshly
constructed model's default configuration (whose image type is BINARY);
optionally amplifies; runs the training/evaluation branch from the fresh
network state; saves the weights; plots, turning a plotting failure into a
`RuntimeError`. -/
def full_run_from_dataset (env : RunEnv) : Except String (List Ev) :=
  if env.multiType then
    .error "Training dataset for multiple types; not yet supported."
  else
    match colorSection env.firstImgChannels (mkCNNModelConfig env.gpuAvailable).img_type with
    | .error e => .error e
    | .ok colorEvs =>
      match runBranch env ⟨false, false, false⟩ with
      | .error e => .error e
      | .ok (_, branchEvs) =>
        if env.plotFails then
          .error "RuntimeError: Model was trained, but plotting failed"
        else .ok (colorEvs ++ amplifySection env ++ branchEvs ++ [.saveEv, .plotEv])

/-- Counterexample to C2 as stated: with the weights file present and
retraining not forced, the run's trace contains the build and fit events
(evaluate always compiles and fits) and contains no weight-loading event
(`load` silently no-ops because no network has been constructed yet). -/
theorem c2_weights_branch_trains_counterexample :
    full_run_from_dataset ⟨false, some 3, false, false, true, false, false, false, false⟩
      = .ok [Ev.grayscaleEv, Ev.binaryEv, Ev.buildEv, Ev.compileEv, Ev.fitEv,
          Ev.evalEv, Ev.predictEv, Ev.saveEv, Ev.plotEv] ∧
    Ev.buildEv ∈ [Ev.grayscaleEv, Ev.binaryEv, Ev.buildEv, Ev.compileEv, Ev.fitEv,
        Ev.evalEv, Ev.predictEv, Ev.saveEv, Ev.plotEv] ∧
    Ev.fitEv ∈ [Ev.grayscaleEv, Ev.binaryEv, Ev.buildEv, Ev.compileEv, Ev.fitEv,
        Ev.evalEv, Ev.predictEv, Ev.saveEv, Ev.plotEv] ∧
    Ev.loadWeightsEv ∉ [Ev.grayscaleEv, Ev.binaryEv, Ev.buildEv, Ev.compileEv, Ev.fitEv,
        Ev.evalEv, Ev.predictEv, Ev.saveEv, Ev.plotEv] :=
  ⟨rfl, by decide, by decide, by decide⟩

theorem amplifySection_events (env : RunEnv) {e : Ev} (he : e ∈ amplifySection env) :
    e = Ev.amplifyEv ∨ e = Ev.unsqueezeEv ∨ e = Ev.squeezeEv := by
  unfold amplifySection at he
  split at he
  · split at he <;> simp at he <;> tauto
  · simp at he

theorem colorSection_binary (c : Nat) :
    colorSection (some c) ValidImgType.BINARY
      = .ok (if c = 3 then [Ev.grayscaleEv, Ev.binaryEv] else [Ev.binaryEv]) := by
  unfold colorSection grayscaleSection
  by_cases hc : c = 3 <;> simp [hc]

theorem colorSection_binary_events (c : Nat) (evs : List Ev)
    (h : colorSection (some c) ValidImgType.BINARY = .ok evs) {e : Ev}
    (he : e ∈ evs) : e = Ev.grayscaleEv ∨ e = Ev.binaryEv := by
  rw [colorSection_binary] at h
  simp only [Except.ok.injEq] at h
  subst h
  by_cases hc : c = 3 <;> simp [hc] at he <;> tauto

/-- Claim C2 (amended): in every run with the weights file present and
retraining not forced (single-type dataset, nonempty frame, plotting
succeeding), the orchestration calls `load` — which silently no-ops, since
no network has been constructed, so no weights are actually loaded — and
then `evaluate`, whose own trace is build, compile, fit, evaluate, predict:
a full training pass occurs, and neither a load event nor the build/fit
events come from anywhere outside `evaluate`. -/
theorem c2_weights_branch_amended (env : RunEnv)
    (h1 : env.weightsExist = true) (h2 : env.forceRetrain = false)
    (h3 : env.multiType = false) (h4 : env.plotFails = false)
    (c : Nat) (h5 : env.firstImgChannels = some c) :
    ∃ colorEvs : List Ev,
      colorSection env.firstImgChannels (mkCNNModelConfig env.gpuAvailable).img_type
        = .ok colorEvs ∧
      full_run_from_dataset env = .ok (colorEvs ++ amplifySection env ++
        [Ev.buildEv, Ev.compileEv, Ev.fitEv, Ev.evalEv, Ev.predictEv] ++
        [Ev.saveEv, Ev.plotEv]) ∧
      Ev.loadWeightsEv ∉ colorEvs ∧ Ev.loadWeightsEv ∉ amplifySection env ∧
      Ev.buildEv ∉ colorEvs ∧ Ev.buildEv ∉ amplifySection env ∧
      Ev.fitEv ∉ colorEvs ∧ Ev.fitEv ∉ amplifySection env := by
  have himg : (mkCNNModelConfig env.gpuAvailable).img_type = ValidImgType.BINARY := rfl
  have hcolor : colorSection env.firstImgChannels (mkCNNModelConfig env.gpuAvailable).img_type
      = .ok (if c = 3 then [Ev.grayscaleEv, Ev.binaryEv] else [Ev.binaryEv]) := by
    rw [h5, himg, colorSection_binary]
  have hbranch : runBranch env ⟨false, false, false⟩
      = .ok (⟨true, true, true⟩,
          [Ev.buildEv, Ev.compileEv, Ev.fitEv, Ev.evalEv, Ev.predictEv]) := by
    unfold runBranch
    rw [h1, h2]
    rfl
  refine ⟨if c = 3 then [Ev.grayscaleEv, Ev.binaryEv] else [Ev.binaryEv], hcolor,
    ?_, ?_, ?_, ?_, ?_, ?_, ?_⟩
  · unfold full_run_from_dataset
    rw [h3]
    simp only [Bool.false_eq_true, if_false]
    rw [hcolor, hbranch, h4]
    simp
  · intro hmem
    rcases colorSection_binary_events c _ (colorSection_binary c) hmem with h | h <;>
      exact Ev.noConfusion h
  · intro hmem
    rcases amplifySection_events env hmem with h | h | h <;> exact Ev.noConfusion h
  · intro hmem
    rcases colorSection_binary_events c _ (colorSection_binary c) hmem with h | h <;>
      exact Ev.noConfusion h
  · intro hmem
    rcases amplifySection_events env hmem with h | h | h <;> exact Ev.noConfusion h
  · intro hmem
    rcases colorSection_binary_events c _ (colorSection_binary c) hmem with h | h <;>
      exact Ev.noConfusion h
  · intro hmem
    rcases amplifySection_events env hmem with h | h | h <;> exact Ev.noConfusion h

/-- Witness for C2 (amended) with amplification on and the GPU available. -/
theorem c2_weights_branch_amended_witness :
    ∃ colorEvs : List Ev,
      colorSection (RunEnv.mk false (some 3) true false true false true false false).firstImgChannels
        (mkCNNModelConfig (RunEnv.mk false (some 3) true false true false true false false).gpuAvailable).img_type
        = .ok colorEvs ∧
      full_run_from_dataset (RunEnv.mk false (some 3) true false true false true false false)
        = .ok (colorEvs ++
          amplifySection (RunEnv.mk false (some 3) true false true false true false false) ++
          [Ev.buildEv, Ev.compileEv, Ev.fitEv, Ev.evalEv, Ev.predictEv] ++
          [Ev.saveEv, Ev.plotEv]) ∧
      Ev.loadWeightsEv ∉ colorEvs ∧
      Ev.loadWeightsEv ∉ amplifySection (RunEnv.mk false (some 3) true false true false true false false) ∧
      Ev.buildEv ∉ colorEvs ∧
      Ev.buildEv ∉ amplifySection (RunEnv.mk false (some 3) true false true false true false false) ∧
      Ev.fitEv ∉ colorEvs ∧
      Ev.fitEv ∉ amplifySection (RunEnv.mk false (some 3) true false true false true false false) :=
  c2_weights_branch_amended (RunEnv.mk false (some 3) true false true false true false false)
    rfl rfl rfl rfl 3 rfl

end TmapDefectDetector
